import Mathlib

/-!
# CSE-front-ar : the GLB to USDZ converter (convert.mjs) and the local HTTPS server (server.js)

A shallow embedding of the two scripts.  Effects (console output, callback
invocations, file-system calls, listener starts, process exit) are recorded as
explicit event traces; everything the scripts obtain from their surroundings
(the random draw, the image decoder, the three.js loader and exporter, the file
system, the openssl command) is a parameter of the embedding.
-/

set_option autoImplicit false

namespace CseFrontAr

/-! ## convert.mjs, lines 17-29 : the blob registry and the URL mock -/

/-- A `Blob` object, reduced to the bytes it holds.  A Blob is an object, hence
truthy, so the test `if (blob)` of the image loader succeeds exactly when
`blobRegistry.get(url)` found an entry. -/
structure Blob where
  bytes : List Nat
  deriving DecidableEq, Repr

/-- The `Map` held in `blobRegistry`, seen through `Map.prototype.get`:
`none` stands for `undefined` (no entry under the key). -/
structure BlobRegistry where
  get : String → Option Blob

namespace BlobRegistry

/-- The registry at process start: `new Map()`. -/
def empty : BlobRegistry := ⟨fun _ => none⟩

/-- JavaScript `Map.prototype.set`: the entry under `k` is created or overwritten. -/
def set (m : BlobRegistry) (k : String) (v : Blob) : BlobRegistry :=
  ⟨fun q => if q = k then some v else m.get q⟩

/-- JavaScript `Map.prototype.delete`: the entry under `k`, if any, is removed. -/
def delete (m : BlobRegistry) (k : String) : BlobRegistry :=
  ⟨fun q => if q = k then none else m.get q⟩

end BlobRegistry

/-- The scheme put in front of every mock object URL. -/
def blobScheme : String := "blob:nodedata:"

/-- `mockURL.createObjectURL(blob)`.  The argument `uuid` is the string drawn by
`Math.random().toString(36).substring(2)`; the result is the returned URL and
the registry after `blobRegistry.set(url, blob)`. -/
def createObjectURL (reg : BlobRegistry) (uuid : String) (blob : Blob) :
    String × BlobRegistry :=
  let url := blobScheme ++ uuid
  (url, reg.set url blob)

/-- `mockURL.revokeObjectURL(url)`: `blobRegistry.delete(url)`. -/
def revokeObjectURL (reg : BlobRegistry) (url : String) : BlobRegistry :=
  reg.delete url

/-- JavaScript `s.startsWith(p)`, on the characters of the two strings (the
only pattern the script uses is the ASCII text `blob:nodedata:`). -/
def jsStartsWith (s p : String) : Bool :=
  p.data.isPrefixOf s.data

/-! ## convert.mjs, lines 49-84 : the patched `THREE.ImageLoader.prototype.load` -/

/-- What the loader assigns to `img.src`: the `Buffer` made from a blob's bytes
(line 68) or the URL string itself (line 81). -/
inductive ImageSrc where
  | buffer (bytes : List Nat)
  | url (href : String)
  deriving DecidableEq, Repr

/-- A `canvas.Image` object: its identity (the rank of its construction among
all `new canvas.Image()` of the process) and the source assigned to it, `none`
when no source was ever assigned. -/
structure Image where
  id : Nat
  src : Option ImageSrc
  deriving DecidableEq, Repr

/-- The values the loader hands to the error callback. -/
inductive LoadError where
  /-- `new Error(message)`, built by the loader itself (line 72). -/
  | error (message : String)
  /-- The value node-canvas passes to `img.onerror`. -/
  | canvas (err : String)
  deriving DecidableEq, Repr

/-- What one call of the loader does that can be observed from outside. -/
inductive LoadEvent where
  /-- Line 51, the console line announcing the load (its text is a fixed label
  followed by the first 50 code units of the URL; only the URL is recorded). -/
  | logLoading (url : String)
  /-- A `console.log` of a fixed text. -/
  | log (text : String)
  /-- A `console.error` of a text. -/
  | logError (text : String)
  /-- Line 65, `console.error` of the fixed label and the decoder's error. -/
  | logCanvasError (err : String)
  /-- An assignment to `img.src` (lines 68 and 81): the image, with the source
  it receives. -/
  | assignSrc (img : Image)
  /-- A call `onLoad(img)` of the success callback. -/
  | onLoad (img : Image)
  /-- A call `onError(err)` of the error callback. -/
  | onError (err : LoadError)
  /-- The TypeError raised by the call `onLoad(img)` when `onLoad` is `undefined`. -/
  | notAFunction
  deriving DecidableEq, Repr

/-- The node-canvas decoder, as the loader sees it: for a source assigned to
`img.src`, `none` when the image decodes (the `onload` handler fires) and
`some err` when it does not (the `onerror` handler fires with `err`). -/
abbrev Decoder := ImageSrc → Option String

/-- The node-canvas library, as the loader sees it. -/
structure Canvas where
  /-- The outcome of decoding a source. -/
  decode : Decoder
  /-- Whether, for a string assigned to `img.src`, the handlers fire inside the
  assignment itself, before line 83 is reached (node-canvas does so for the
  path of a local file and for a data URI), or after the call has returned
  (as for a remote URL, which it fetches first). -/
  inSetter : String → Bool

/-- Asynchronous work a call of the loader has left behind when it returns,
with the callbacks its closures captured: `onLoad` and `onError` tell whether
the callback is a function or `undefined`. -/
inductive Pending where
  /-- Lines 56-69: the `then` continuation of `blob.arrayBuffer()`. -/
  | arrayBuffer (blob : Blob) (onLoad onError : Bool)
  /-- Lines 76-81: the image of identity `id`, with its two handlers installed
  and `url` assigned to its `src`. -/
  | decode (id : Nat) (url : String) (onLoad onError : Bool)
  deriving DecidableEq, Repr

/-- The state of a call of the loader at the moment it returns. -/
structure LoadResult where
  /-- The value of `return new canvas.Image()` (line 83); `none` when the call
  throws before it reaches that line. -/
  ret : Option Image
  /-- What happened before the return, in order. -/
  sync : List LoadEvent
  /-- The number of `canvas.Image` objects constructed so far. -/
  fresh : Nat
  /-- The work still outstanding. -/
  pending : Option Pending
  deriving DecidableEq, Repr

/-- The call `onLoad(img)` (lines 62 and 77, unguarded): `supplied` tells
whether the argument `onLoad` is a function or `undefined`. -/
def callOnLoad (supplied : Bool) (img : Image) : LoadEvent :=
  if supplied then .onLoad img else .notAFunction

/-- The statement `if (onError) onError(err)` (lines 66, 72 and 79): `supplied`
tells whether the argument `onError` is a function or `undefined`. -/
def callOnError (supplied : Bool) (err : LoadError) : List LoadEvent :=
  if supplied then [.onError err] else []

/-- The text of the `Error` built on line 72. -/
def notFoundMessage (url : String) : String := "Blob not found: " ++ url

/-- The text of the `console.error` of line 71. -/
def notFoundLog (url : String) : String := "❌ Blob not found: " ++ url

/-- The body of the patched `load(url, onLoad, onProgress, onError)` up to its
`return`.  `fresh` is the number of `canvas.Image` objects constructed before the
call; `onLoad` and `onError` tell whether the callback is a function or
`undefined` (a callback that is a function is taken to return normally);
`onProgress` is never used by the body.  On the branch for regular URLs the
handlers installed on lines 77-80 run inside the assignment of line 81 when
node-canvas settles the source there: a call `onLoad(img)` with `onLoad`
undefined then throws out of `load`, which never reaches its `return`. -/
def load (canvas : Canvas) (reg : BlobRegistry) (fresh : Nat) (url : String)
    (onLoad onError : Bool) : LoadResult :=
  if jsStartsWith url blobScheme then
    match reg.get url with
    | some blob =>
        { sync := [.logLoading url]
          pending := some (.arrayBuffer blob onLoad onError)
          ret := some ⟨fresh, none⟩
          fresh := fresh + 1 }
    | none =>
        { sync := [.logLoading url, .logError (notFoundLog url)]
            ++ callOnError onError (.error (notFoundMessage url))
          pending := none
          ret := some ⟨fresh, none⟩
          fresh := fresh + 1 }
  else
    let img : Image := ⟨fresh, some (.url url)⟩
    if canvas.inSetter url then
      match canvas.decode (.url url) with
      | none =>
          if onLoad then
            { sync := [.logLoading url, .assignSrc img, .onLoad img]
              pending := none
              ret := some ⟨fresh + 1, none⟩
              fresh := fresh + 2 }
          else
            { sync := [.logLoading url, .assignSrc img, .notAFunction]
              pending := none
              ret := none
              fresh := fresh + 1 }
      | some err =>
          { sync := [.logLoading url, .assignSrc img] ++ callOnError onError (.canvas err)
            pending := none
            ret := some ⟨fresh + 1, none⟩
            fresh := fresh + 2 }
    else
      { sync := [.logLoading url, .assignSrc img]
        pending := some (.decode fresh url onLoad onError)
        ret := some ⟨fresh + 1, none⟩
        fresh := fresh + 2 }

/-- The outstanding work of a call, run to its end.  `fresh` is the number of
`canvas.Image` objects constructed by then. -/
def settle (canvas : Canvas) (fresh : Nat) : Pending → List LoadEvent
  | .arrayBuffer blob onLoad onError =>
      let img : Image := ⟨fresh, some (.buffer blob.bytes)⟩
      .log "📦 Blob loaded, converting to Image..." :: .assignSrc img ::
        (match canvas.decode (.buffer blob.bytes) with
         | none => [.log "✅ Image loaded successfully", callOnLoad onLoad img]
         | some err => .logCanvasError err :: callOnError onError (.canvas err))
  | .decode id url onLoad onError =>
      let img : Image := ⟨id, some (.url url)⟩
      match canvas.decode (.url url) with
      | none => [callOnLoad onLoad img]
      | some err => callOnError onError (.canvas err)

/-- Everything one call of the loader does, in order: the synchronous part,
then the outstanding work, run after `later` further `canvas.Image` objects
were constructed elsewhere. -/
def loadTrace (canvas : Canvas) (reg : BlobRegistry) (fresh later : Nat)
    (url : String) (onLoad onError : Bool) : List LoadEvent :=
  let r := load canvas reg fresh url onLoad onError
  r.sync ++
    (match r.pending with
     | none => []
     | some p => settle canvas (r.fresh + later) p)

/-- Whether an event is a call of one of the two callbacks. -/
def LoadEvent.isCallback : LoadEvent → Bool
  | .onLoad _ => true
  | .onError _ => true
  | _ => false

/-- The calls of the success and error callbacks in a trace, in order. -/
def callbacks (t : List LoadEvent) : List LoadEvent :=
  t.filter LoadEvent.isCallback

/-- Whether a call took the branch of lines 70-73: its `console.error` is
unconditional there and occurs nowhere else. -/
def tookNotFoundBranch (url : String) (r : LoadResult) : Bool :=
  r.sync.contains (.logError (notFoundLog url))

/-- Whether a call took the branch of lines 75-81, for regular URLs: the
assignment of line 81 is unconditional there and the call itself makes no
other assignment to an `img.src`. -/
def tookRegularBranch (r : LoadResult) : Bool :=
  r.sync.any fun e =>
    match e with
    | .assignSrc _ => true
    | _ => false

/-! ## convert.mjs, lines 37-131 : the conversion driver -/

/-- Line 38. -/
def INPUT_FILE : String := "public/assets/models/CSE-front-ar-ios-safe.glb"

/-- Line 39. -/
def OUTPUT_FILE : String := "public/assets/models/CSE-front-ar.usdz"

/-- The scene graph `gltf.scene` produced by the three.js loader, by a handle. -/
abbrev Scene := Nat

/-- How the call `loader.parse(arrayBuffer, '', onLoad, onError)` of line 102 ends. -/
inductive ParseOutcome where
  /-- The loader calls the success callback with `gltf`. -/
  | loaded (scene : Scene)
  /-- The loader calls the error callback with `err`. -/
  | failed (err : String)
  /-- The call itself throws, inside the `try` block of line 94. -/
  | threw (err : String)
  deriving DecidableEq, Repr

/-- What the driver obtains from the file system and from three.js. -/
structure ConvertEnv where
  /-- `fs.readFileSync(path)`: the bytes of the file, or the error thrown. -/
  readFileSync : String → Except String (List Nat)
  /-- `GLTFLoader.parse` on the bytes read. -/
  parse : List Nat → ParseOutcome
  /-- `await exporter.parse(gltf.scene)`: the archive bytes, or the rejection. -/
  exportScene : Scene → Except String (List Nat)
  /-- `fs.writeFileSync(path, data)`: success, or the error thrown. -/
  writeFileSync : String → List Nat → Except String Unit

/-- The observable steps of a run of `convert()`. -/
inductive Step where
  | log (text : String)
  /-- `console.error(label, err)`. -/
  | logError (label : String) (err : String)
  /-- Line 111, the console line reporting the size of the written file
  (`bytes` is the size in bytes that `fs.statSync` reports). -/
  | logSize (bytes : Nat)
  /-- Line 92, `setInterval(() => { }, 1000)`. -/
  | setInterval
  /-- `clearInterval(keepAlive)`. -/
  | clearInterval
  /-- The call `fs.readFileSync(path)`. -/
  | readFileSync (path : String)
  /-- The call `loader.parse(arrayBuffer, ...)`. -/
  | parse (data : List Nat)
  /-- The call `exporter.parse(gltf.scene)`. -/
  | exportScene (scene : Scene)
  /-- The call `fs.writeFileSync(path, data)`. -/
  | writeFileSync (path : String) (data : List Nat)
  /-- `process.exit(code)`. -/
  | exit (code : Nat)
  deriving DecidableEq, Repr

/-- The three lines every failure path ends with: the `console.error`, then
`clearInterval(keepAlive)`, then `process.exit(1)`. -/
def failWith (label err : String) : List Step :=
  [.logError label err, .clearInterval, .exit 1]

/-- Lines 105-119: the body of the success callback handed to the loader. -/
def onGltf (env : ConvertEnv) (scene : Scene) : List Step :=
  [.log "✅ GLB Loaded. Exporting to USDZ...", .exportScene scene] ++
    match env.exportScene scene with
    | .error exportErr => failWith "❌ Error exporting USDZ:" exportErr
    | .ok usdz =>
        .writeFileSync OUTPUT_FILE usdz ::
          match env.writeFileSync OUTPUT_FILE usdz with
          | .error exportErr => failWith "❌ Error exporting USDZ:" exportErr
          | .ok _ =>
              [.log ("🎉 Success! Saved to " ++ OUTPUT_FILE), .logSize usdz.length,
               .clearInterval, .exit 0]

/-- Lines 86-130 of `convert()`, after the three dynamic imports and the patch
of the image loader: the steps of the run, in order, up to `process.exit`. -/
def convert (env : ConvertEnv) : List Step :=
  [.log "🔧 Initializing environment...",
   .log ("🔄 Starting conversion: " ++ INPUT_FILE ++ " -> " ++ OUTPUT_FILE),
   .setInterval, .readFileSync INPUT_FILE] ++
    match env.readFileSync INPUT_FILE with
    | .error err => failWith "❌ Error reading file:" err
    | .ok buffer =>
        [.log "📂 Parsing GLB...", .parse buffer] ++
          match env.parse buffer with
          | .threw err => failWith "❌ Error reading file:" err
          | .failed err => failWith "❌ Error parsing GLB:" err
          | .loaded scene => onGltf env scene

/-- The status the process exits with: the code of the first `process.exit`
of the run, `none` when the run never calls it. -/
def exitStatus : List Step → Option Nat
  | [] => none
  | .exit code :: _ => some code
  | _ :: rest => exitStatus rest

/-- Whether the four stages of a run all succeed: the read, the parse, the
export and the write. -/
def allStagesSucceed (env : ConvertEnv) : Bool :=
  match env.readFileSync INPUT_FILE with
  | .error _ => false
  | .ok buffer =>
      match env.parse buffer with
      | .loaded scene =>
          (match env.exportScene scene with
           | .error _ => false
           | .ok usdz =>
               (match env.writeFileSync OUTPUT_FILE usdz with
                | .error _ => false
                | .ok _ => true))
      | _ => false

/-- Whether the read fails. -/
def readFails (env : ConvertEnv) : Bool :=
  match env.readFileSync INPUT_FILE with
  | .error _ => true
  | .ok _ => false

/-- Whether the read succeeds and the parse fails (by the error callback or by
throwing). -/
def parseFails (env : ConvertEnv) : Bool :=
  match env.readFileSync INPUT_FILE with
  | .error _ => false
  | .ok buffer =>
      match env.parse buffer with
      | .loaded _ => false
      | _ => true

/-- Whether the read and the parse succeed and the export fails. -/
def exportFails (env : ConvertEnv) : Bool :=
  match env.readFileSync INPUT_FILE with
  | .error _ => false
  | .ok buffer =>
      match env.parse buffer with
      | .loaded scene =>
          (match env.exportScene scene with
           | .error _ => true
           | .ok _ => false)
      | _ => false

/-- Whether a step is a call of the parser, of the exporter or of
`fs.writeFileSync`. -/
def Step.isWork : Step → Bool
  | .parse _ => true
  | .exportScene _ => true
  | .writeFileSync _ _ => true
  | _ => false

/-- Whether a step is `clearInterval(keepAlive)`. -/
def Step.isClear : Step → Bool
  | .clearInterval => true
  | _ => false

/-- Whether a step is a `process.exit`. -/
def Step.isExit : Step → Bool
  | .exit _ => true
  | _ => false

/-- Whether a step belongs to the life of the keep-alive timer: its creation,
the read that follows it, its cancellation and the exit of the process. -/
def Step.isTimeline : Step → Bool
  | .setInterval => true
  | .readFileSync _ => true
  | .clearInterval => true
  | .exit _ => true
  | _ => false

/-! ## server.js -/

/-- Line 8. -/
def port : Nat := 8443

/-- The two files the server looks for: their contents, `none` when the file
does not exist. -/
structure ServerFiles where
  cert : Option (List Nat)
  key : Option (List Nat)
  deriving DecidableEq, Repr

/-- What the server obtains from its surroundings at startup. -/
structure ServerEnv where
  /-- Line 14, `path.join(__dirname, 'cert.pem')`. -/
  certPath : String
  /-- Line 15, `path.join(__dirname, 'key.pem')`. -/
  keyPath : String
  /-- The two files as they are when the script starts. -/
  files : ServerFiles
  /-- The result of the openssl command, should it be run: the error handed to
  the callback of `exec`, or, when the callback receives no error, the two
  files as the command has left them (it is asked to write the key to `keyPath`
  and the certificate to `certPath`). -/
  openssl : Except String ServerFiles
  /-- Whether `https.createServer` accepts the contents `key` and `cert` as a
  PEM private key and certificate; it throws when it does not. -/
  acceptsPem : (key cert : List Nat) → Bool

/-- The observable steps of the server's startup. -/
inductive ServerEvent where
  | log (text : String)
  /-- `console.error(label, err)`. -/
  | logError (label : String) (err : String)
  /-- `exec(command, callback)`. -/
  | exec (command : String)
  /-- `app.listen(port, ...)`: a plain HTTP listener. -/
  | listenHttp (port : Nat)
  /-- `https.createServer({ key, cert }, app).listen(port, ...)`. -/
  | listenHttps (port : Nat) (key cert : List Nat)
  /-- `fs.readFileSync` throws on a file that does not exist. -/
  | readThrows (path : String)
  /-- `https.createServer(options, app)` throws on a key or a certificate that
  is not valid PEM; nothing catches it and the process ends. -/
  | createServerThrows
  deriving DecidableEq, Repr

/-- The command line of line 19. -/
def opensslCommand (keyPath certPath : String) : String :=
  "openssl req -x509 -newkey rsa:2048 -keyout " ++ keyPath ++ " -out " ++ certPath
    ++ " -days 365 -nodes -subj \"/CN=localhost\""

/-- Lines 35-50, `startHTTPS()`, run with the two files as they are then: the
key and the certificate are read from the two paths, `https.createServer` builds
the TLS server from them and the listener is started on `port`; the lines that
follow the `listen` are the ones its callback prints.  Nothing in the function
catches a throw of `fs.readFileSync` or of `https.createServer`. -/
def startHTTPS (env : ServerEnv) (files : ServerFiles) : List ServerEvent :=
  match files.key with
  | none => [.readThrows env.keyPath]
  | some key =>
      match files.cert with
      | none => [.readThrows env.certPath]
      | some cert =>
          if env.acceptsPem key cert then
            [.listenHttps port key cert,
             .log "\n✅ HTTPS Server running!",
             .log ("🌐 Local: https://localhost:" ++ toString port),
             .log "\n📱 Next steps:",
             .log "   1. Accept the self-signed certificate warning",
             .log "   2. Upload marker to public/assets/markers/target.mind",
             .log "   3. Add 3D model to public/assets/models/model.glb",
             .log "   4. Open on mobile device and grant camera permissions\n"]
          else
            [.createServerThrows]

/-- Lines 17-33: the startup of the server. -/
def startup (env : ServerEnv) : List ServerEvent :=
  if env.files.cert.isNone || env.files.key.isNone then
    [.log "Generating self-signed certificate...",
     .exec (opensslCommand env.keyPath env.certPath)] ++
      match env.openssl with
      | .error err =>
          [.logError "Failed to generate certificate:" err,
           .log "\nStarting HTTP server instead on port 3000...",
           .listenHttp port,
           .log ("\n✅ Server running at http://localhost:" ++ toString port),
           .log "⚠️  Note: Camera access requires HTTPS. Use chrome://flags/#unsafely-treat-insecure-origin-as-secure"]
      | .ok written => startHTTPS env written
  else
    startHTTPS env env.files

/-- Whether a startup step runs the certificate-generation command. -/
def ServerEvent.isExec : ServerEvent → Bool
  | .exec _ => true
  | _ => false

/-- The listeners a startup starts, in order. -/
def listeners (t : List ServerEvent) : List ServerEvent :=
  t.filter fun e =>
    match e with
    | .listenHttp _ => true
    | .listenHttps _ _ _ => true
    | _ => false

/-! ## Properties of the blob registry and of the image loader -/

/-- A URL built by `createObjectURL` starts with the scheme. -/
theorem jsStartsWith_blobScheme_append (uuid : String) :
    jsStartsWith (blobScheme ++ uuid) blobScheme = true := by
  simp [jsStartsWith, String.data_append, List.isPrefixOf_iff_prefix]

/-- The loader on a URL of the scheme that the registry does not hold (lines 70-73). -/
theorem load_of_unregistered (canvas : Canvas) (reg : BlobRegistry) (fresh : Nat)
    (url : String) (onLoad onError : Bool) (hs : jsStartsWith url blobScheme = true)
    (hn : reg.get url = none) :
    load canvas reg fresh url onLoad onError =
      { sync := [.logLoading url, .logError (notFoundLog url)]
          ++ callOnError onError (.error (notFoundMessage url))
        pending := none
        ret := some ⟨fresh, none⟩
        fresh := fresh + 1 } := by
  simp [load, hs, hn]

/-- The loader on a URL of the scheme that the registry holds (lines 54-69). -/
theorem load_of_registered (canvas : Canvas) (reg : BlobRegistry) (fresh : Nat)
    (url : String) (onLoad onError : Bool) (blob : Blob)
    (hs : jsStartsWith url blobScheme = true) (hr : reg.get url = some blob) :
    load canvas reg fresh url onLoad onError =
      { sync := [.logLoading url]
        pending := some (.arrayBuffer blob onLoad onError)
        ret := some ⟨fresh, none⟩
        fresh := fresh + 1 } := by
  simp [load, hs, hr]

/-- The loader on a URL without the scheme, when node-canvas settles the
source after the call has returned (lines 75-83). -/
theorem load_of_regular_later (canvas : Canvas) (reg : BlobRegistry) (fresh : Nat)
    (url : String) (onLoad onError : Bool) (hs : jsStartsWith url blobScheme = false)
    (hl : canvas.inSetter url = false) :
    load canvas reg fresh url onLoad onError =
      { sync := [.logLoading url, .assignSrc ⟨fresh, some (.url url)⟩]
        pending := some (.decode fresh url onLoad onError)
        ret := some ⟨fresh + 1, none⟩
        fresh := fresh + 2 } := by
  simp [load, hs, hl]

/-- The loader on a URL without the scheme never logs a missing blob and
always assigns the URL to the `src` of an image. -/
theorem load_of_regular_branch (canvas : Canvas) (reg : BlobRegistry) (fresh : Nat)
    (url : String) (onLoad onError : Bool) (hs : jsStartsWith url blobScheme = false) :
    tookNotFoundBranch url (load canvas reg fresh url onLoad onError) = false ∧
    tookRegularBranch (load canvas reg fresh url onLoad onError) = true := by
  cases hl : canvas.inSetter url <;> cases hd : canvas.decode (.url url) <;>
    cases onLoad <;> cases onError <;>
    simp [load, hs, hl, hd, tookNotFoundBranch, tookRegularBranch, callOnError]

/-- C2, as stated, fails: for the URL `blob:nodedata:zz`, absent from the empty
registry, a call that supplies `onLoad` and no `onError` calls no callback at
all, so the error callback is not called once. -/
theorem C2_counterexample :
    jsStartsWith "blob:nodedata:zz" blobScheme = true ∧
    BlobRegistry.empty.get "blob:nodedata:zz" = none ∧
    callbacks (loadTrace ⟨fun _ => none, fun _ => true⟩ BlobRegistry.empty 0 0
      "blob:nodedata:zz" true false) = [] := by
  decide

/-- C2, amended: for a URL that starts with `blob:nodedata:` and is absent from
the registry, the only callback the loader calls is the error callback, once,
with an `Error` whose message is `Blob not found: <url>`, when an error
callback is supplied; when none is supplied no callback is called.  In both
cases `onLoad` is never called, whatever else the registry holds. -/
theorem C2_unregistered_blob_calls_onError (canvas : Canvas) (reg : BlobRegistry)
    (fresh later : Nat) (url : String) (onLoad onError : Bool)
    (hs : jsStartsWith url blobScheme = true) (hn : reg.get url = none) :
    callbacks (loadTrace canvas reg fresh later url onLoad onError)
        = (if onError then [.onError (.error ("Blob not found: " ++ url))] else []) ∧
      ∀ img, LoadEvent.onLoad img ∉ loadTrace canvas reg fresh later url onLoad onError := by
  rw [loadTrace, load_of_unregistered canvas reg fresh url onLoad onError hs hn]
  cases onError <;>
    simp [callbacks, callOnError, notFoundMessage, LoadEvent.isCallback]

/-- The amended C2 at a registry that holds another URL, with both callbacks supplied. -/
theorem C2_unregistered_blob_calls_onError_witness :
    callbacks (loadTrace ⟨fun _ => none, fun _ => true⟩
        (createObjectURL BlobRegistry.empty "k3" ⟨[1]⟩).2 4 2 "blob:nodedata:zz" true true)
        = [.onError (.error "Blob not found: blob:nodedata:zz")] ∧
      ∀ img, LoadEvent.onLoad img ∉ loadTrace ⟨fun _ => none, fun _ => true⟩
        (createObjectURL BlobRegistry.empty "k3" ⟨[1]⟩).2 4 2 "blob:nodedata:zz" true true :=
  C2_unregistered_blob_calls_onError ⟨fun _ => none, fun _ => true⟩
    (createObjectURL BlobRegistry.empty "k3" ⟨[1]⟩).2 4 2 "blob:nodedata:zz" true true
    (by decide) (by decide)

/-- C3, as stated, fails: the URL returned by `createObjectURL` for a blob
whose bytes the decoder rejects is registered, yet its load never calls
`onLoad` and calls the error callback with the decoder's error. -/
theorem C3_counterexample :
    (createObjectURL BlobRegistry.empty "k3" ⟨[1]⟩).1 = "blob:nodedata:k3" ∧
    (createObjectURL BlobRegistry.empty "k3" ⟨[1]⟩).2.get "blob:nodedata:k3" = some ⟨[1]⟩ ∧
    callbacks (loadTrace ⟨fun _ => some "bad", fun _ => true⟩
      (createObjectURL BlobRegistry.empty "k3" ⟨[1]⟩).2 0 0 "blob:nodedata:k3" true true)
      = [.onError (.canvas "bad")] := by
  decide

/-- C3, amended: for a URL that starts with `blob:nodedata:` and is registered
with a blob, the outcome of the load follows the decoding of that blob's bytes.
When they decode, the only callback called is `onLoad` (if it is a function),
once, with the image whose source is the registered blob's bytes, and the error
callback is not called.  When they do not decode, `onLoad` is never called and
the error callback, if supplied, is called once with the decoder's error. -/
theorem C3_registered_blob_follows_decoder (canvas : Canvas) (reg : BlobRegistry)
    (fresh later : Nat) (url : String) (onLoad onError : Bool) (blob : Blob)
    (hs : jsStartsWith url blobScheme = true) (hr : reg.get url = some blob) :
    callbacks (loadTrace canvas reg fresh later url onLoad onError)
      = (match canvas.decode (.buffer blob.bytes) with
         | none =>
             if onLoad then [.onLoad ⟨fresh + 1 + later, some (.buffer blob.bytes)⟩] else []
         | some err => if onError then [.onError (.canvas err)] else []) := by
  rw [loadTrace, load_of_registered canvas reg fresh url onLoad onError blob hs hr]
  cases hd : canvas.decode (.buffer blob.bytes) <;> cases onLoad <;> cases onError <;>
    simp [callbacks, settle, hd, callOnLoad, callOnError, LoadEvent.isCallback]

/-- The amended C3 at a URL returned by `createObjectURL`, with a decoder that accepts the bytes. -/
theorem C3_registered_blob_follows_decoder_witness :
    callbacks (loadTrace ⟨fun _ => none, fun _ => true⟩
        (createObjectURL BlobRegistry.empty "k3" ⟨[1, 2]⟩).2 4 2 "blob:nodedata:k3" true true)
      = [.onLoad ⟨7, some (.buffer [1, 2])⟩] :=
  C3_registered_blob_follows_decoder ⟨fun _ => none, fun _ => true⟩
    (createObjectURL BlobRegistry.empty "k3" ⟨[1, 2]⟩).2 4 2 "blob:nodedata:k3" true true
    ⟨[1, 2]⟩ (by decide) (by decide)

/-- C7, as stated, fails: a load of the file path `tex.png` without `onLoad`,
with an error callback, on a file that node-canvas decodes inside the
assignment of line 81, throws the TypeError of the call `onLoad(img)` of line 77
and returns nothing. -/
theorem C7_counterexample :
    (load ⟨fun _ => none, fun _ => true⟩ BlobRegistry.empty 0 "tex.png" false true).ret
      = none ∧
    (load ⟨fun _ => none, fun _ => true⟩ BlobRegistry.empty 0 "tex.png" false true).sync
      = [.logLoading "tex.png", .assignSrc ⟨0, some (.url "tex.png")⟩, .notAFunction] := by
  decide

/-- C7, amended: the loader returns in every case but one, a call without
`onLoad` on a URL that does not start with `blob:nodedata:` and that node-canvas
decodes inside the assignment `img.src = url`, where the call throws.  Whenever
it returns, on any of the three branches and however the decoding ends, the
value is a `canvas.Image` constructed during the call (its identity is not one
of the `fresh` images that existed before) to which no source was ever
assigned, and no image handed to `onLoad` by that load is the returned
object. -/
theorem C7_load_return_value (canvas : Canvas) (reg : BlobRegistry)
    (fresh later : Nat) (url : String) (onLoad onError : Bool) :
    (load canvas reg fresh url onLoad onError).ret
      = (if !jsStartsWith url blobScheme && canvas.inSetter url
            && (canvas.decode (.url url)).isNone && !onLoad
         then none
         else some ⟨if jsStartsWith url blobScheme then fresh else fresh + 1, none⟩) ∧
    ∀ ret, (load canvas reg fresh url onLoad onError).ret = some ret →
      ret.src = none ∧ fresh ≤ ret.id ∧
      ret.id < (load canvas reg fresh url onLoad onError).fresh ∧
      ∀ img, LoadEvent.onLoad img ∈ loadTrace canvas reg fresh later url onLoad onError →
        img.id ≠ ret.id ∧ img ≠ ret := by
  cases hs : jsStartsWith url blobScheme
  · cases hl : canvas.inSetter url
    · rw [loadTrace, load_of_regular_later canvas reg fresh url onLoad onError hs hl]
      refine ⟨by simp, ?_⟩
      intro ret hret
      simp only [Option.some.injEq] at hret
      subst hret
      refine ⟨rfl, by simp, by simp, ?_⟩
      intro img himg
      cases hd : canvas.decode (.url url) <;> cases onLoad <;> cases onError <;>
        simp [settle, hd, callOnLoad, callOnError] at himg
      all_goals (subst himg; exact ⟨by simp, by simp⟩)
    · cases hd : canvas.decode (.url url) <;> cases onLoad <;> cases onError <;>
        simp [loadTrace, load, hs, hl, hd, callOnError]
  · cases hr : reg.get url with
    | none =>
        rw [loadTrace, load_of_unregistered canvas reg fresh url onLoad onError hs hr]
        refine ⟨by simp, ?_⟩
        intro ret hret
        simp only [Option.some.injEq] at hret
        subst hret
        refine ⟨rfl, by simp, by simp, ?_⟩
        intro img himg
        cases onError <;> simp [callOnError] at himg
    | some blob =>
        rw [loadTrace, load_of_registered canvas reg fresh url onLoad onError blob hs hr]
        refine ⟨by simp, ?_⟩
        intro ret hret
        simp only [Option.some.injEq] at hret
        subst hret
        refine ⟨rfl, by simp, by simp, ?_⟩
        intro img himg
        cases hd : canvas.decode (.buffer blob.bytes) <;> cases onLoad <;> cases onError <;>
          simp [settle, hd, callOnLoad, callOnError] at himg
        all_goals (subst himg; exact ⟨by show fresh + 1 + later ≠ fresh; omega, by simp⟩)

/-- C9, as stated, fails: after `revokeObjectURL("a.png")` the registry has no
entry for `a.png`, yet a load of `a.png` does not take the not-found branch: the
URL does not start with `blob:nodedata:` and takes the branch for regular
URLs. -/
theorem C9_counterexample :
    (revokeObjectURL BlobRegistry.empty "a.png").get "a.png" = none ∧
    tookNotFoundBranch "a.png"
      (load ⟨fun _ => none, fun _ => true⟩ (revokeObjectURL BlobRegistry.empty "a.png") 0
        "a.png" true true) = false ∧
    tookRegularBranch
      (load ⟨fun _ => none, fun _ => true⟩ (revokeObjectURL BlobRegistry.empty "a.png") 0
        "a.png" true true) = true := by
  decide

/-- C9, amended: `createObjectURL(blob)` returns a URL that starts with
`blob:nodedata:`, the registry then maps that URL to exactly that blob, and a
load of it is routed to the registry branch with that blob.  After
`revokeObjectURL(url)` the registry has no entry for `url` and every other
entry is unchanged; a subsequent load of `url` takes the not-found branch
exactly when `url` starts with `blob:nodedata:`, and the branch for regular
URLs otherwise. -/
theorem C9_registry_round_trip (canvas : Canvas) (reg : BlobRegistry) (uuid : String)
    (blob : Blob) (url other : String) (fresh : Nat) (onLoad onError : Bool) :
    jsStartsWith (createObjectURL reg uuid blob).1 blobScheme = true ∧
    (createObjectURL reg uuid blob).2.get (createObjectURL reg uuid blob).1 = some blob ∧
    (load canvas (createObjectURL reg uuid blob).2 fresh (createObjectURL reg uuid blob).1
        onLoad onError).pending = some (.arrayBuffer blob onLoad onError) ∧
    (revokeObjectURL reg url).get url = none ∧
    (revokeObjectURL reg url).get other = (if other = url then none else reg.get other) ∧
    tookNotFoundBranch url (load canvas (revokeObjectURL reg url) fresh url onLoad onError)
      = jsStartsWith url blobScheme ∧
    tookRegularBranch (load canvas (revokeObjectURL reg url) fresh url onLoad onError)
      = !jsStartsWith url blobScheme := by
  have hnone : (revokeObjectURL reg url).get url = none := by
    simp [revokeObjectURL, BlobRegistry.delete]
  have hsome : (createObjectURL reg uuid blob).2.get (createObjectURL reg uuid blob).1
      = some blob := by
    simp [createObjectURL, BlobRegistry.set]
  have hpre : jsStartsWith (createObjectURL reg uuid blob).1 blobScheme = true :=
    jsStartsWith_blobScheme_append uuid
  refine ⟨hpre, hsome, ?_, hnone, ?_, ?_, ?_⟩
  · rw [load_of_registered canvas _ fresh _ onLoad onError blob hpre hsome]
  · simp [revokeObjectURL, BlobRegistry.delete]
  · cases hs : jsStartsWith url blobScheme
    · exact (load_of_regular_branch canvas _ fresh url onLoad onError hs).1
    · rw [load_of_unregistered canvas _ fresh url onLoad onError hs hnone]
      simp [tookNotFoundBranch]
  · cases hs : jsStartsWith url blobScheme
    · exact (load_of_regular_branch canvas _ fresh url onLoad onError hs).2
    · rw [load_of_unregistered canvas _ fresh url onLoad onError hs hnone]
      cases onError <;> simp [tookRegularBranch, callOnError]

/-- C10, as stated, fails: when the identifier drawn is one already in use,
the URL returned is a URL already registered and the blob registered under it
is replaced. -/
theorem C10_counterexample :
    (createObjectURL BlobRegistry.empty "abc" ⟨[1]⟩).2.get "blob:nodedata:abc" = some ⟨[1]⟩ ∧
    (createObjectURL (createObjectURL BlobRegistry.empty "abc" ⟨[1]⟩).2 "abc" ⟨[2]⟩).1
      = "blob:nodedata:abc" ∧
    (createObjectURL (createObjectURL BlobRegistry.empty "abc" ⟨[1]⟩).2 "abc" ⟨[2]⟩).2.get
      "blob:nodedata:abc" = some ⟨[2]⟩ := by
  decide

/-- C10, amended: `createObjectURL` never disturbs a registration under another
URL: every URL registered before the call, other than the URL returned, is
still mapped to the same blob after the call.  When the URL built from the
identifier drawn is not registered yet, the URL returned is different from
every URL already registered, so that no earlier registration is disturbed. -/
theorem C10_createObjectURL_frame (reg : BlobRegistry) (uuid : String) (blob : Blob)
    (url : String) (earlier : Blob) (hreg : reg.get url = some earlier) :
    (url ≠ (createObjectURL reg uuid blob).1 →
      (createObjectURL reg uuid blob).2.get url = some earlier) ∧
    (reg.get (createObjectURL reg uuid blob).1 = none →
      (createObjectURL reg uuid blob).1 ≠ url ∧
      (createObjectURL reg uuid blob).2.get url = some earlier) := by
  have hframe : url ≠ (createObjectURL reg uuid blob).1 →
      (createObjectURL reg uuid blob).2.get url = some earlier := by
    intro hne
    have hne2 : ¬ url = blobScheme ++ uuid := hne
    simp [createObjectURL, BlobRegistry.set, hne2, hreg]
  refine ⟨hframe, ?_⟩
  intro hfree
  have hne : (createObjectURL reg uuid blob).1 ≠ url := by
    intro h
    rw [h, hreg] at hfree
    cases hfree
  exact ⟨hne, hframe (Ne.symm hne)⟩

/-- The amended C10 at a second registration under a different identifier. -/
theorem C10_createObjectURL_frame_witness :
    (createObjectURL (createObjectURL BlobRegistry.empty "abc" ⟨[1]⟩).2 "xyz" ⟨[2]⟩).1
      ≠ "blob:nodedata:abc" ∧
    (createObjectURL (createObjectURL BlobRegistry.empty "abc" ⟨[1]⟩).2 "xyz" ⟨[2]⟩).2.get
      "blob:nodedata:abc" = some ⟨[1]⟩ :=
  (C10_createObjectURL_frame (createObjectURL BlobRegistry.empty "abc" ⟨[1]⟩).2 "xyz" ⟨[2]⟩
    "blob:nodedata:abc" ⟨[1]⟩ (by decide)).2 (by decide)

/-! ## Properties of the conversion driver -/

/-- C4: for every outcome of the read, the parse, the export and the write,
the run ends with `process.exit`, called once, as its last step; the status is
0 exactly when the four stages all succeed and 1 otherwise, in particular when
the read, the parse or the export fails. -/
theorem C4_exit_status (env : ConvertEnv) :
    exitStatus (convert env) = some (if allStagesSucceed env then 0 else 1) ∧
    ((readFails env || parseFails env || exportFails env) = true →
      exitStatus (convert env) = some 1) ∧
    (convert env).getLast? = some (.exit (if allStagesSucceed env then 0 else 1)) ∧
    ((convert env).filter Step.isExit).length = 1 := by
  cases h1 : env.readFileSync INPUT_FILE with
  | error err =>
      simp [convert, h1, failWith, exitStatus, allStagesSucceed, readFails, Step.isExit]
  | ok buffer =>
      cases h2 : env.parse buffer with
      | threw err =>
          simp [convert, h1, h2, failWith, exitStatus, allStagesSucceed, readFails,
            parseFails, Step.isExit]
      | failed err =>
          simp [convert, h1, h2, failWith, exitStatus, allStagesSucceed, readFails,
            parseFails, Step.isExit]
      | loaded scene =>
          cases h3 : env.exportScene scene with
          | error err =>
              simp [convert, onGltf, h1, h2, h3, failWith, exitStatus, allStagesSucceed,
                readFails, parseFails, exportFails, Step.isExit]
          | ok usdz =>
              cases h4 : env.writeFileSync OUTPUT_FILE usdz with
              | error err =>
                  simp [convert, onGltf, h1, h2, h3, h4, failWith, exitStatus,
                    allStagesSucceed, readFails, parseFails, exportFails, Step.isExit]
              | ok u =>
                  simp [convert, onGltf, h1, h2, h3, h4, failWith, exitStatus,
                    allStagesSucceed, readFails, parseFails, exportFails, Step.isExit]

/-- C5: when the read of the input file fails, the process exits with status 1
and the run calls neither the parser, nor the exporter, nor
`fs.writeFileSync`: the output file is never written. -/
theorem C5_read_failure_exits_1 (env : ConvertEnv) (hread : readFails env = true) :
    exitStatus (convert env) = some 1 ∧
    (convert env).filter Step.isWork = [] ∧
    ∀ data, Step.writeFileSync OUTPUT_FILE data ∉ convert env := by
  cases h1 : env.readFileSync INPUT_FILE with
  | error err =>
      simp [convert, h1, failWith, exitStatus, Step.isWork]
  | ok buffer =>
      simp [readFails, h1] at hread

/-- C5 at a run whose read throws while every later stage would succeed. -/
theorem C5_read_failure_exits_1_witness :
    exitStatus (convert ⟨fun _ => .error "ENOENT", fun _ => .loaded 0, fun _ => .ok [7],
        fun _ _ => .ok ()⟩) = some 1 ∧
    (convert ⟨fun _ => .error "ENOENT", fun _ => .loaded 0, fun _ => .ok [7],
        fun _ _ => .ok ()⟩).filter Step.isWork = [] ∧
    ∀ data, Step.writeFileSync OUTPUT_FILE data ∉
      convert ⟨fun _ => .error "ENOENT", fun _ => .loaded 0, fun _ => .ok [7],
        fun _ _ => .ok ()⟩ :=
  C5_read_failure_exits_1 ⟨fun _ => .error "ENOENT", fun _ => .loaded 0, fun _ => .ok [7],
    fun _ _ => .ok ()⟩ (by decide)

/-- C8: on every path of `convert()` the keep-alive timer is created before
the read, `clearInterval` is called exactly once, and `process.exit` is called
exactly once, right after `clearInterval` and as the last step of the run. -/
theorem C8_timer_cleared_before_exit (env : ConvertEnv) :
    (convert env).filter Step.isTimeline
      = [.setInterval, .readFileSync INPUT_FILE, .clearInterval,
         .exit (if allStagesSucceed env then 0 else 1)] ∧
    (convert env).drop ((convert env).length - 2)
      = [.clearInterval, .exit (if allStagesSucceed env then 0 else 1)] := by
  cases h1 : env.readFileSync INPUT_FILE with
  | error err =>
      simp [convert, h1, failWith, allStagesSucceed, Step.isTimeline]
  | ok buffer =>
      cases h2 : env.parse buffer with
      | threw err =>
          simp [convert, h1, h2, failWith, allStagesSucceed, Step.isTimeline]
      | failed err =>
          simp [convert, h1, h2, failWith, allStagesSucceed, Step.isTimeline]
      | loaded scene =>
          cases h3 : env.exportScene scene with
          | error err =>
              simp [convert, onGltf, h1, h2, h3, failWith, allStagesSucceed,
                Step.isTimeline]
          | ok usdz =>
              cases h4 : env.writeFileSync OUTPUT_FILE usdz with
              | error err =>
                  simp [convert, onGltf, h1, h2, h3, h4, failWith, allStagesSucceed,
                    Step.isTimeline]
              | ok u =>
                  simp [convert, onGltf, h1, h2, h3, h4, failWith, allStagesSucceed,
                    Step.isTimeline]

/-! ## Properties of the server's startup -/

/-- C1, the code at a failing startup: with both files missing and a failing
openssl command, the log announces port 3000 and the only listener started is
a plain HTTP listener on the configured port 8443, not on another port. -/
theorem C1_fallback_listens_on_8443 :
    listeners (startup ⟨"cert.pem", "key.pem", ⟨none, none⟩, .error "openssl: not found",
        fun _ _ => true⟩)
      = [.listenHttp 8443] ∧
    ServerEvent.log "\nStarting HTTP server instead on port 3000..." ∈
      startup ⟨"cert.pem", "key.pem", ⟨none, none⟩, .error "openssl: not found",
        fun _ _ => true⟩ ∧
    ServerEvent.listenHttp 3000 ∉
      startup ⟨"cert.pem", "key.pem", ⟨none, none⟩, .error "openssl: not found",
        fun _ _ => true⟩ := by
  decide

/-- C6, as stated, fails: with both files present and empty, which
`https.createServer` does not accept as a PEM key and certificate, the command
is not run and `startHTTPS` throws: no listener is started at all. -/
theorem C6_counterexample :
    (startup ⟨"cert.pem", "key.pem", ⟨some [], some []⟩, .error "not run",
        fun key cert => !key.isEmpty && !cert.isEmpty⟩).any ServerEvent.isExec = false ∧
    listeners (startup ⟨"cert.pem", "key.pem", ⟨some [], some []⟩, .error "not run",
        fun key cert => !key.isEmpty && !cert.isEmpty⟩) = [] ∧
    startup ⟨"cert.pem", "key.pem", ⟨some [], some []⟩, .error "not run",
        fun key cert => !key.isEmpty && !cert.isEmpty⟩ = [.createServerThrows] := by
  decide

/-- C6, amended: the certificate-generation command is run exactly when at
least one of the two files is missing.  When both files exist, the command is
not run and the key and the certificate are read from the two files; when a
file is missing and the command ends without error, they are read from the two
files as the command left them.  In both cases, if both files are there and
`https.createServer` accepts their contents, the only listener started is an
HTTPS listener on port 8443 with that key and that certificate; otherwise
`startHTTPS` throws and no listener is started. -/
theorem C6_startup_decision (env : ServerEnv) :
    ((startup env).any ServerEvent.isExec
      = (env.files.cert.isNone || env.files.key.isNone)) ∧
    (∀ cert key, env.files = ⟨some cert, some key⟩ →
      listeners (startup env)
        = (if env.acceptsPem key cert then [.listenHttps 8443 key cert] else [])) ∧
    (∀ written, (env.files.cert.isNone || env.files.key.isNone) = true →
      env.openssl = .ok written →
      ServerEvent.exec (opensslCommand env.keyPath env.certPath) ∈ startup env ∧
      listeners (startup env)
        = (match written.key, written.cert with
           | some key, some cert =>
               if env.acceptsPem key cert then [.listenHttps 8443 key cert] else []
           | _, _ => [])) := by
  obtain ⟨certPath, keyPath, ⟨fc, fk⟩, gen, accepts⟩ := env
  refine ⟨?_, ?_, ?_⟩
  · cases fc <;> cases fk <;> rcases gen with err | ⟨wc, wk⟩ <;>
      (try cases wc) <;> (try cases wk) <;>
      simp [startup, startHTTPS, ServerEvent.isExec] <;>
      split <;> simp
  · intro cert key h
    simp only [ServerFiles.mk.injEq] at h
    obtain ⟨hc, hk⟩ := h
    subst hc hk
    cases ha : accepts key cert <;>
      simp [startup, startHTTPS, listeners, port, ha]
  · intro written hmiss hgen
    simp only at hmiss hgen
    subst hgen
    obtain ⟨wc, wk⟩ := written
    cases fc <;> cases fk <;> simp at hmiss <;> cases wc <;> cases wk <;>
      simp [startup, startHTTPS, listeners, port] <;>
      split <;> simp

end CseFrontAr
